import Mathlib

/-!
Shallow embedding of `iris.py`, a batch image watermarking tool, together
with proofs about its behaviour.

The program has three parts: an options model (`WatermarkOptions`,
`ShadowOptions`, lines 7–26), a compositing routine (`add_watermark`,
lines 28–93) and a folder walker (`process_images`, lines 95–106), plus
CLI validation (`validate_options`, lines 125–139).

Python floats are modelled as exact rationals (ℚ), Python ints as ℤ, and
`int(x)` as truncation toward zero (`pyInt`).  Pillow operations
(`Image.open`, `ImageFont.truetype`, `ImageDraw.textbbox`) are effects
supplied by an `Env` record; the pixel-level operations performed on an
image (convert, resize, draw text, blur, alpha-composite) are recorded
symbolically in a `Content` term, so that theorems can speak about which
operations were applied, in which order, and with which arguments.
-/

namespace Iris

/-- Python `int(x)` applied to a rational: truncation toward zero
(numerator T-division by the positive denominator). -/
def pyInt (q : ℚ) : ℤ := q.num.tdiv q.den

/-- Python `str.lower()` restricted to the ASCII strings it is applied to
in this program (file-name extensions). -/
def strLower (s : String) : String := String.mk (s.toList.map Char.toLower)

/-- A file-system path, as its list of components (`pathlib.PurePath.parts`
without the anchor). -/
abbrev FsPath := List String

/-- CPython `pathlib.PurePath.suffix` applied to a file name: the part of
the name from its last dot onward, provided that dot is neither the first
nor the last character; otherwise the empty string. -/
def pySuffix (name : String) : String :=
  let cs := name.toList
  match ((List.range cs.length).filter (fun i => cs.getD i ' ' = '.')).getLast? with
  | some i => if 0 < i ∧ i < cs.length - 1 then String.mk (cs.drop i) else ""
  | none => ""

/-- `ShadowOptions` (iris.py lines 17–22): shadow offset, blur radius and
opacity. -/
structure ShadowOptions where
  offset_x : ℤ
  offset_y : ℤ
  blur : ℤ
  opacity : ℚ
deriving DecidableEq, Repr

/-- The keyword arguments accepted by `ShadowOptions.__init__` (each one
optionally present). -/
structure ShadowKwargs where
  offset_x : Option ℤ := none
  offset_y : Option ℤ := none
  blur : Option ℤ := none
  opacity : Option ℚ := none
deriving DecidableEq, Repr

/-- `ShadowOptions.__init__` (lines 18–22): each field is
`kwargs.get(key, default)` with defaults 3, 3, 3 and 0.7. -/
def ShadowOptions.ofKwargs (k : ShadowKwargs) : ShadowOptions :=
  { offset_x := k.offset_x.getD 3
    offset_y := k.offset_y.getD 3
    blur := k.blur.getD 3
    opacity := k.opacity.getD (7/10) }

/-- `WatermarkOptions` (iris.py lines 7–15). -/
structure WatermarkOptions where
  text : String
  font_path : Option String
  font_size : ℤ
  opacity : ℚ
  padding : ℤ
  shadow : ShadowOptions
  downsize_to : Option ℤ
deriving DecidableEq, Repr

/-- The keyword arguments accepted by `WatermarkOptions.__init__`.
`font_path` and `downsize_to` default to `None`, so an absent keyword and
an explicit `None` coincide and both are modelled by `none`. -/
structure WatermarkKwargs where
  text : Option String := none
  font_path : Option String := none
  font_size : Option ℤ := none
  opacity : Option ℚ := none
  padding : Option ℤ := none
  shadow : Option ShadowKwargs := none
  downsize_to : Option ℤ := none
deriving DecidableEq, Repr

/-- `WatermarkOptions.__init__` (lines 8–15): each field is
`kwargs.get(key, default)`; the `shadow` entry (default `{}`) is unpacked
into `ShadowOptions`. -/
def WatermarkOptions.ofKwargs (k : WatermarkKwargs) : WatermarkOptions :=
  { text := k.text.getD "版权所有"
    font_path := k.font_path
    font_size := k.font_size.getD 40
    opacity := k.opacity.getD (1/2)
    padding := k.padding.getD 20
    shadow := ShadowOptions.ofKwargs (k.shadow.getD {})
    downsize_to := k.downsize_to }

/-- An RGBA colour with integer channels, as passed to `ImageDraw.text`. -/
structure Color where
  r : ℤ
  g : ℤ
  b : ℤ
  a : ℤ
deriving DecidableEq, Repr

/-- Symbolic record of the Pillow pixel operations applied to an image:
decoding a source file, `convert`, `resize`, `Image.new`, `Draw.text`,
`GaussianBlur`, `alpha_composite`. -/
inductive Content where
  | source (path : FsPath)
  | converted (c : Content) (mode : String)
  | resized (c : Content) (size : ℤ × ℤ)
  | blank (size : ℤ × ℤ) (color : Color)
  | text (c : Content) (pos : ℤ × ℤ) (s : String) (fill : Color)
  | blur (c : Content) (radius : ℤ)
  | composite (lower upper : Content)
deriving DecidableEq, Repr

/-- What `Image.open` reports about a decoded source file: pixel
dimensions, mode and the detected format tag (`None` when undetectable). -/
structure SourceImage where
  width : ℤ
  height : ℤ
  mode : String
  format : Option String
deriving DecidableEq, Repr

/-- A font handle as returned by `ImageFont.truetype(path, size)`. -/
structure Font where
  path : String
  size : ℤ
deriving DecidableEq, Repr

/-- The text bounding box returned by `ImageDraw.textbbox((0,0), text,
font)`: the 4-tuple `(bbox[0], bbox[1], bbox[2], bbox[3])`. -/
structure BBox where
  x0 : ℤ
  y0 : ℤ
  x1 : ℤ
  y1 : ℤ
deriving DecidableEq, Repr

/-- Errors raised by the modelled Pillow calls. -/
inductive PilError where
  | unidentifiedImage (path : FsPath)
  | isADirectory (path : FsPath)
  | fontNotFound (path : String)
  | cannotWriteMode (mode format : String)
deriving DecidableEq, Repr

/-- The Pillow effects used by `add_watermark`, supplied as an
environment: decoding (`Image.open` plus reading the pixel data), font
loading (`ImageFont.truetype`) and text measurement
(`ImageDraw.textbbox`). -/
structure Env where
  openImage : FsPath → Except PilError SourceImage
  truetype : String → ℤ → Except PilError Font
  textbbox : Font → String → BBox

/-- The macOS system font hard-coded at lines 54 and 56. -/
def systemFontPath : String := "/System/Library/Fonts/STHeiti Medium.ttc"

/-- Python truthiness of an optional string (`if options.font_path:`,
`if args['font']:`): `None` and the empty string are falsy. -/
def truthyStr : Option String → Bool
  | none => false
  | some s => !s.isEmpty

/-- Lines 51–56: inside `try`, load the custom font when `options.font_path`
is truthy and the system font otherwise; on any exception, load the system
font (a second failure propagates). -/
def setupFont (env : Env) (font_path : Option String) (font_size : ℤ) :
    Except PilError Font :=
  let firstTry :=
    if truthyStr font_path then env.truetype (font_path.getD "") font_size
    else env.truetype systemFontPath font_size
  match firstTry with
  | .ok f => .ok f
  | .error _ => env.truetype systemFontPath font_size

/-- Python truthiness of `options.downsize_to` combined with the size test
of line 37: the resize branch runs iff `downsize_to` is a non-zero integer
and at least one dimension exceeds it. -/
def downsizeTriggers (w h : ℤ) : Option ℤ → Bool
  | none => false
  | some m => m ≠ 0 ∧ (w > m ∨ h > m)

/-- Lines 35–40: the image size after the optional downsize.  When the
resize branch runs, `ratio = min(max_size / img.width, max_size /
img.height)` in exact arithmetic and `new_size = (int(width * ratio),
int(height * ratio))`. -/
def downsizedSize (w h : ℤ) (downsize_to : Option ℤ) : ℤ × ℤ :=
  match downsize_to with
  | none => (w, h)
  | some m =>
    if m ≠ 0 ∧ (w > m ∨ h > m) then
      let ratio : ℚ := min ((m : ℚ) / (w : ℚ)) ((m : ℚ) / (h : ℚ))
      (pyInt ((w : ℚ) * ratio), pyInt ((h : ℚ) * ratio))
    else (w, h)

/-- Lines 31–32: the mode after the forced conversion to RGBA. -/
def modeAfterConvert (mode : String) : String :=
  if mode ≠ "RGBA" then "RGBA" else mode

/-- Lines 31–40: the pixel content of the base image after the RGBA
conversion (line 32) and the optional downsize (line 40). -/
def baseAfterDownsize (image_path : FsPath) (src : SourceImage)
    (downsize_to : Option ℤ) : Content :=
  let conv :=
    if src.mode ≠ "RGBA" then Content.converted (.source image_path) "RGBA"
    else Content.source image_path
  if downsizeTriggers src.width src.height downsize_to then
    Content.resized conv (downsizedSize src.width src.height downsize_to)
  else conv

/-- The observable result of a successful `add_watermark` call: where the
file was saved, with which format tag, which parent directories were
created (line 91 creates `os.path.dirname(output_path)`), and the saved
pixel content, size and mode. -/
structure SavedFile where
  path : FsPath
  format : String
  dirsCreated : FsPath
  content : Content
  width : ℤ
  height : ℤ
  mode : String
deriving DecidableEq, Repr

/-- Which (format, mode) pairs Pillow's encoders accept.  Modelled from
Pillow's documented behaviour: the JPEG encoder rejects images with an
alpha channel (`OSError: cannot write mode RGBA as JPEG`); the other
formats on this program's allow-list accept the modes that reach them
here. -/
def formatAcceptsMode (format mode : String) : Bool :=
  if format = "JPEG" then mode != "RGBA" else true

/-- The `SavedFile` produced by the success path of `add_watermark`
(lines 42–93): layer creation, text measurement (lines 59–61), anchor
computation (lines 63–64), shadow drawing and blur (lines 66–76),
watermark drawing (lines 78–84), compositing (lines 87–88) and saving
(lines 90–93). -/
def mkResult (env : Env) (image_path output_path : FsPath)
    (options : WatermarkOptions) (src : SourceImage) (font : Font) :
    SavedFile :=
  let size := downsizedSize src.width src.height options.downsize_to
  let bbox := env.textbbox font options.text
  let text_width := bbox.x1 - bbox.x0
  let text_height := bbox.y1 - bbox.y0
  let x := size.1 - text_width - options.padding
  let y := size.2 - text_height - options.padding
  let shadow_color : Color := ⟨0, 0, 0, pyInt (255 * options.shadow.opacity)⟩
  let shadow_layer :=
    Content.blur
      (Content.text (Content.blank size ⟨0, 0, 0, 0⟩)
        (x + options.shadow.offset_x, y + options.shadow.offset_y)
        options.text shadow_color)
      options.shadow.blur
  let watermark :=
    Content.text (Content.blank size ⟨0, 0, 0, 0⟩) (x, y) options.text
      ⟨255, 255, 255, pyInt (255 * options.opacity)⟩
  let base := baseAfterDownsize image_path src options.downsize_to
  let result := Content.composite (Content.composite base shadow_layer) watermark
  { path := output_path
    format := src.format.getD "PNG"
    dirsCreated := output_path.dropLast
    content := result
    width := size.1
    height := size.2
    mode := modeAfterConvert src.mode }

/-- `add_watermark` (lines 28–93).  The decode of line 30 and the font
loading of lines 51–56 can raise; the save of line 93 raises when the
detected format's encoder rejects the (always RGBA) mode.  Line 92 reopens
the source purely to read its format tag, which in this effect model
yields the same `SourceImage`; line 91's `makedirs` result is recorded in
`SavedFile.dirsCreated`. -/
def add_watermark (env : Env) (image_path output_path : FsPath)
    (options : WatermarkOptions) : Except PilError SavedFile :=
  match env.openImage image_path with
  | .error e => .error e
  | .ok src =>
    match setupFont env options.font_path options.font_size with
    | .error e => .error e
    | .ok font =>
      let fmt := src.format.getD "PNG"
      if formatAcceptsMode fmt (modeAfterConvert src.mode) then
        .ok (mkResult env image_path output_path options src font)
      else
        .error (.cannotWriteMode (modeAfterConvert src.mode) fmt)

/-- The extension allow-list of line 101. -/
def image_extensions : List String := [".jpg", ".jpeg", ".png", ".bmp", ".tiff"]

/-- Line 101's test on one entry: `img_path.suffix.lower() in [...]`.
The suffix is that of the entry's final path component. -/
def matchesExt (p : FsPath) : Bool :=
  decide (strLower (pySuffix (p.getLast?.getD "")) ∈ image_extensions)

/-- Whether an entry yielded by `Path.rglob('*')` is a file or a
directory; line 101 never inspects this. -/
inductive EntryKind where
  | file
  | dir
deriving DecidableEq, Repr

/-- One entry yielded by `input_path.rglob('*')`: its path relative to the
input root, and what kind of entry it is on disk. -/
structure Entry where
  rel : FsPath
  kind : EntryKind
deriving DecidableEq, Repr

/-- The entries of the loop at lines 100–106 that pass the extension test
of line 101, in traversal order. -/
def selectedEntries (entries : List Entry) : List Entry :=
  entries.filter (fun e => matchesExt e.rel)

/-- The body of the loop at lines 100–106 applied to the selected entries
in order: each call's output path is the entry's path relative to the
input root re-rooted under the output root (lines 102–103); an exception
from `add_watermark` aborts the remaining iterations. -/
def processSelected (env : Env) (input_folder output_folder : FsPath)
    (options : WatermarkOptions) : List Entry → Except PilError (List SavedFile)
  | [] => .ok []
  | e :: rest =>
    match add_watermark env (input_folder ++ e.rel) (output_folder ++ e.rel) options with
    | .error err => .error err
    | .ok saved =>
      match processSelected env input_folder output_folder options rest with
      | .error err => .error err
      | .ok saves => .ok (saved :: saves)

/-- `process_images` (lines 95–106): enumerate the entries under the input
root, keep those whose lower-cased suffix is on the allow-list, and run
`add_watermark` on each with the re-rooted output path. -/
def process_images (env : Env) (input_folder output_folder : FsPath)
    (entries : List Entry) (options : WatermarkOptions) :
    Except PilError (List SavedFile) :=
  processSelected env input_folder output_folder options (selectedEntries entries)

/-- The CLI arguments after `parse_args` (lines 108–123), typed as parsed:
`font` and `downsize_to` may be absent. -/
structure Args where
  input : String
  output : String
  watermark : String
  font : Option String
  font_size : ℤ
  opacity : ℚ
  padding : ℤ
  shadow_offset_x : ℤ
  shadow_offset_y : ℤ
  shadow_blur : ℤ
  shadow_opacity : ℚ
  downsize_to : Option ℤ

/-- `validate_options` (lines 125–139), with `os.path.exists` supplied as
an oracle.  Returns `false` (after printing) when the input folder does
not exist, when either opacity is outside `[0, 1]`, or when a truthy font
argument names a non-existent path; otherwise `true`. -/
def validate_options (pathExists : String → Bool) (args : Args) : Bool :=
  if ¬ pathExists args.input then false
  else if ¬ (0 ≤ args.opacity ∧ args.opacity ≤ 1) ∨
          ¬ (0 ≤ args.shadow_opacity ∧ args.shadow_opacity ≤ 1) then false
  else if truthyStr args.font ∧ ¬ pathExists (args.font.getD "") then false
  else true

/-- `main` (lines 141–167) returns before processing anything exactly when
`validate_options` fails (lines 144–145). -/
def main_proceeds (pathExists : String → Bool) (args : Args) : Bool :=
  validate_options pathExists args

/-- The compositing pipeline as the SPEC describes it (spec §4.1 steps
5–7), written from the spec's words for comparison with the code: render
the shadow text onto an empty transparent layer at anchor + offset in
black with the shadow alpha, blur that whole layer; render the watermark
text onto a second empty transparent layer at the anchor in white with the
watermark alpha; composite the shadow layer onto the base first and the
watermark layer on top. -/
def specComposite (base : Content) (size anchor offset : ℤ × ℤ) (text : String)
    (blurRadius shadowAlpha textAlpha : ℤ) : Content :=
  let shadowLayer :=
    Content.blur
      (Content.text (Content.blank size ⟨0, 0, 0, 0⟩)
        (anchor.1 + offset.1, anchor.2 + offset.2) text ⟨0, 0, 0, shadowAlpha⟩)
      blurRadius
  let watermarkLayer :=
    Content.text (Content.blank size ⟨0, 0, 0, 0⟩) anchor text
      ⟨255, 255, 255, textAlpha⟩
  Content.composite (Content.composite base shadowLayer) watermarkLayer

/-- Whether a modelled Pillow call returned without raising. -/
def returnsOk {α : Type} : Except PilError α → Bool
  | .ok _ => true
  | .error _ => false

/-- `WatermarkOptions()` with no keyword arguments: all defaults. -/
def defaultOptions : WatermarkOptions := WatermarkOptions.ofKwargs {}

/-- A 10×10 RGBA PNG source image, small enough that the default text
box exceeds it. -/
def tinySrc : SourceImage := ⟨10, 10, "RGBA", some "PNG"⟩

/-- An environment in which every path decodes to `tinySrc`, every font
loads, and every text measures 100×30 from the origin. -/
def tinyEnv : Env :=
  { openImage := fun _ => .ok tinySrc
    truetype := fun p s => .ok ⟨p, s⟩
    textbbox := fun _ _ => ⟨0, 0, 100, 30⟩ }

/-- An environment in which no file decodes (corrupt input). -/
def corruptEnv : Env :=
  { openImage := fun p => .error (.unidentifiedImage p)
    truetype := fun p s => .ok ⟨p, s⟩
    textbbox := fun _ _ => ⟨0, 0, 100, 30⟩ }

/-- An environment in which only the system font loads: any custom font
path raises, as a missing or corrupt font file does. -/
def fontFallbackEnv : Env :=
  { openImage := fun _ => .ok tinySrc
    truetype := fun p s =>
      if p = systemFontPath then .ok ⟨p, s⟩ else .error (.fontNotFound p)
    textbbox := fun _ _ => ⟨0, 0, 100, 30⟩ }

/-- Options with a custom font path that does not load in
`fontFallbackEnv`. -/
def customFontOptions : WatermarkOptions :=
  WatermarkOptions.ofKwargs { font_path := some "/missing/font.ttf" }

/-- An RGB JPEG source image (Pillow reports mode RGB and format JPEG for
a baseline JPEG file). -/
def jpegSrc : SourceImage := ⟨400, 300, "RGB", some "JPEG"⟩

/-- An environment in which every path decodes to an RGB JPEG. -/
def jpegEnv : Env :=
  { openImage := fun _ => .ok jpegSrc
    truetype := fun p s => .ok ⟨p, s⟩
    textbbox := fun _ _ => ⟨0, 0, 100, 30⟩ }

/-- An environment in which opening any path raises `IsADirectoryError`,
as `Image.open` does on a directory. -/
def dirEnv : Env :=
  { openImage := fun p => .error (.isADirectory p)
    truetype := fun p s => .ok ⟨p, s⟩
    textbbox := fun _ _ => ⟨0, 0, 100, 30⟩ }

/-- A directory entry whose name carries an image extension. -/
def photosDirEntry : Entry := ⟨["photos.png"], .dir⟩

/-- A small input tree: two images (one with an upper-case extension, one
in a subfolder) and one non-image file. -/
def sampleEntries : List Entry :=
  [⟨["a.PNG"], .file⟩, ⟨["readme.txt"], .file⟩, ⟨["sub", "b.jpeg"], .file⟩]

/-- The files `process_images` saves when run on `sampleEntries` in
`tinyEnv` with roots `in` and `out`. -/
def sampleSaves : List SavedFile :=
  [mkResult tinyEnv ["in", "a.PNG"] ["out", "a.PNG"] defaultOptions tinySrc
     ⟨systemFontPath, 40⟩,
   mkResult tinyEnv ["in", "sub", "b.jpeg"] ["out", "sub", "b.jpeg"]
     defaultOptions tinySrc ⟨systemFontPath, 40⟩]

/-! ## Helper lemmas -/

theorem pyInt_eq_floor (q : ℚ) (h : 0 ≤ q) : pyInt q = ⌊q⌋ := by
  rw [pyInt, Rat.floor_def]
  exact Int.tdiv_eq_ediv (Rat.num_nonneg.mpr h) (Int.natCast_nonneg q.den)

theorem modeAfterConvert_eq_rgba (m : String) : modeAfterConvert m = "RGBA" := by
  unfold modeAfterConvert
  split
  · rfl
  · next h => exact not_not.mp h

theorem add_watermark_eq (env : Env) (ip op : FsPath) (opts : WatermarkOptions)
    (src : SourceImage) (font : Font)
    (hsrc : env.openImage ip = .ok src)
    (hfont : setupFont env opts.font_path opts.font_size = .ok font) :
    add_watermark env ip op opts =
      if formatAcceptsMode (src.format.getD "PNG") "RGBA" then
        .ok (mkResult env ip op opts src font)
      else
        .error (.cannotWriteMode "RGBA" (src.format.getD "PNG")) := by
  simp only [add_watermark, hsrc, hfont, modeAfterConvert_eq_rgba]

theorem add_watermark_ok_elim (env : Env) (ip op : FsPath)
    (opts : WatermarkOptions) (o : SavedFile)
    (hok : add_watermark env ip op opts = .ok o) :
    ∃ src font,
      env.openImage ip = .ok src ∧
      setupFont env opts.font_path opts.font_size = .ok font ∧
      formatAcceptsMode (src.format.getD "PNG") "RGBA" = true ∧
      o = mkResult env ip op opts src font := by
  rcases h1 : env.openImage ip with e | src
  · simp [add_watermark, h1] at hok
  rcases h2 : setupFont env opts.font_path opts.font_size with e | font
  · simp [add_watermark, h1, h2] at hok
  rw [add_watermark_eq env ip op opts src font h1 h2] at hok
  split at hok
  · next hc => exact ⟨src, font, rfl, rfl, hc, (Except.ok.inj hok).symm⟩
  · exact absurd hok (by simp)

theorem add_watermark_path (env : Env) (ip op : FsPath)
    (opts : WatermarkOptions) (o : SavedFile)
    (hok : add_watermark env ip op opts = .ok o) : o.path = op := by
  obtain ⟨src, font, -, -, -, ho⟩ := add_watermark_ok_elim env ip op opts o hok
  rw [ho]
  rfl

/-! ## Claim theorems -/

/-- C1: For every image processed by `add_watermark` (after any
downsizing) and every non-negative padding, the watermark text is drawn
onto its transparent layer at anchor position
(image_width − text_width − padding, image_height − text_height − padding),
where text_width and text_height come from the text bounding box for the
font in use; the anchor is not clamped, so it may be negative when the
text exceeds the image bounds. -/
theorem anchor_formula (env : Env) (image_path output_path : FsPath)
    (options : WatermarkOptions) (src : SourceImage) (font : Font) (o : SavedFile)
    (hsrc : env.openImage image_path = .ok src)
    (hfont : setupFont env options.font_path options.font_size = .ok font)
    (hok : add_watermark env image_path output_path options = .ok o)
    (_hpad : 0 ≤ options.padding) :
    ∃ base shadow_layer : Content,
      o.content =
        Content.composite (Content.composite base shadow_layer)
          (Content.text (Content.blank (o.width, o.height) ⟨0, 0, 0, 0⟩)
            (o.width -
               ((env.textbbox font options.text).x1 - (env.textbbox font options.text).x0) -
               options.padding,
             o.height -
               ((env.textbbox font options.text).y1 - (env.textbbox font options.text).y0) -
               options.padding)
            options.text ⟨255, 255, 255, pyInt (255 * options.opacity)⟩) := by
  obtain ⟨src2, font2, h1, h2, -, ho⟩ :=
    add_watermark_ok_elim env image_path output_path options o hok
  rw [hsrc] at h1
  rw [hfont] at h2
  cases Except.ok.inj h1
  cases Except.ok.inj h2
  subst ho
  exact ⟨_, _, rfl⟩

theorem anchor_formula_witness :
    ∃ base shadow_layer : Content,
      (mkResult tinyEnv ["in", "img.png"] ["out", "img.png"] defaultOptions
          tinySrc ⟨systemFontPath, 40⟩).content =
        Content.composite (Content.composite base shadow_layer)
          (Content.text (Content.blank (10, 10) ⟨0, 0, 0, 0⟩) (-110, -40)
            "版权所有" ⟨255, 255, 255, pyInt (255 * (1/2))⟩) :=
  anchor_formula tinyEnv ["in", "img.png"] ["out", "img.png"] defaultOptions
    tinySrc ⟨systemFontPath, 40⟩ _ rfl rfl rfl (by decide)

/-- C3: `add_watermark` builds its result exactly as the spec's pipeline
describes: shadow text in black with alpha ⌊shadow.opacity × 255⌋ on an
empty transparent layer at anchor + shadow_offset, that whole layer
blurred with the configured radius; watermark text in white with alpha
⌊opacity × 255⌋ on a second empty transparent layer at the anchor; then
the shadow layer alpha-composited onto the base image first and the
watermark layer on top. -/
theorem pipeline_refines_spec (env : Env) (image_path output_path : FsPath)
    (options : WatermarkOptions) (src : SourceImage) (font : Font) (o : SavedFile)
    (hsrc : env.openImage image_path = .ok src)
    (hfont : setupFont env options.font_path options.font_size = .ok font)
    (hok : add_watermark env image_path output_path options = .ok o) :
    o.content =
      specComposite (baseAfterDownsize image_path src options.downsize_to)
        (o.width, o.height)
        (o.width -
           ((env.textbbox font options.text).x1 - (env.textbbox font options.text).x0) -
           options.padding,
         o.height -
           ((env.textbbox font options.text).y1 - (env.textbbox font options.text).y0) -
           options.padding)
        (options.shadow.offset_x, options.shadow.offset_y)
        options.text options.shadow.blur
        (pyInt (255 * options.shadow.opacity)) (pyInt (255 * options.opacity)) := by
  obtain ⟨src2, font2, h1, h2, -, ho⟩ :=
    add_watermark_ok_elim env image_path output_path options o hok
  rw [hsrc] at h1
  rw [hfont] at h2
  cases Except.ok.inj h1
  cases Except.ok.inj h2
  subst ho
  rfl

theorem pipeline_refines_spec_witness :
    (mkResult tinyEnv ["in", "img.png"] ["out", "img.png"] defaultOptions
        tinySrc ⟨systemFontPath, 40⟩).content =
      specComposite (baseAfterDownsize ["in", "img.png"] tinySrc none) (10, 10)
        (-110, -40) (3, 3) "版权所有" 3
        (pyInt (255 * (7/10))) (pyInt (255 * (1/2))) :=
  pipeline_refines_spec tinyEnv ["in", "img.png"] ["out", "img.png"]
    defaultOptions tinySrc ⟨systemFontPath, 40⟩ _ rfl rfl rfl

/-- C4: on success, `add_watermark` saves with the format tag detected
from the source file, defaulting to PNG when no format is detectable, at
the requested output path, after creating the output path's parent
directories. -/
theorem save_format_and_parents (env : Env) (ip op : FsPath)
    (opts : WatermarkOptions) (src : SourceImage) (o : SavedFile)
    (hsrc : env.openImage ip = .ok src)
    (hok : add_watermark env ip op opts = .ok o) :
    o.path = op ∧ o.format = src.format.getD "PNG" ∧
    o.dirsCreated = op.dropLast := by
  obtain ⟨src2, font, h1, -, -, ho⟩ := add_watermark_ok_elim env ip op opts o hok
  rw [hsrc] at h1
  cases Except.ok.inj h1
  subst ho
  exact ⟨rfl, rfl, rfl⟩

theorem save_format_and_parents_witness :
    (mkResult tinyEnv ["in", "img.png"] ["out", "sub", "img.png"] defaultOptions
        tinySrc ⟨systemFontPath, 40⟩).path = ["out", "sub", "img.png"] ∧
    (mkResult tinyEnv ["in", "img.png"] ["out", "sub", "img.png"] defaultOptions
        tinySrc ⟨systemFontPath, 40⟩).format = "PNG" ∧
    (mkResult tinyEnv ["in", "img.png"] ["out", "sub", "img.png"] defaultOptions
        tinySrc ⟨systemFontPath, 40⟩).dirsCreated = ["out", "sub"] :=
  save_format_and_parents tinyEnv ["in", "img.png"] ["out", "sub", "img.png"]
    defaultOptions tinySrc _ rfl rfl

/-- C7 fails on the code: there is no conversion step before encoding, so
an RGB JPEG input is composited in RGBA and then saved with format tag
JPEG, which the JPEG encoder rejects; `add_watermark` raises instead of
saving. -/
theorem jpeg_save_raises :
    add_watermark jpegEnv ["photos", "cat.jpg"] ["out", "photos", "cat.jpg"]
      defaultOptions = .error (.cannotWriteMode "RGBA" "JPEG") := rfl

theorem processSelected_paths (env : Env) (inF outF : FsPath)
    (opts : WatermarkOptions) :
    ∀ (l : List Entry) (saves : List SavedFile),
      processSelected env inF outF opts l = .ok saves →
      saves.map SavedFile.path = l.map (fun e => outF ++ e.rel) := by
  intro l
  induction l with
  | nil =>
    intro saves h
    simp only [processSelected] at h
    cases Except.ok.inj h
    rfl
  | cons e rest ih =>
    intro saves h
    simp only [processSelected] at h
    rcases ha : add_watermark env (inF ++ e.rel) (outF ++ e.rel) opts with err | s
    · simp [ha] at h
    rcases hr : processSelected env inF outF opts rest with err | ss
    · simp [ha, hr] at h
    simp only [ha, hr] at h
    cases Except.ok.inj h
    simp only [List.map_cons]
    rw [add_watermark_path env (inF ++ e.rel) (outF ++ e.rel) opts s ha, ih ss hr]

/-- C5: `process_images` selects exactly the entries whose lower-cased
suffix is one of .jpg, .jpeg, .png, .bmp, .tiff, and saves each selected
entry at its path relative to the input root re-rooted under the output
root; entries with non-matching extensions are never processed. -/
theorem walker_allowlist_and_rerooting :
    (∀ (entries : List Entry) (e : Entry),
      e ∈ selectedEntries entries ↔
        e ∈ entries ∧
          strLower (pySuffix (e.rel.getLast?.getD "")) ∈ image_extensions) ∧
    (∀ (env : Env) (inF outF : FsPath) (entries : List Entry)
       (opts : WatermarkOptions) (saves : List SavedFile),
      process_images env inF outF entries opts = .ok saves →
      saves.map SavedFile.path =
        (selectedEntries entries).map (fun e => outF ++ e.rel)) := by
  constructor
  · intro entries e
    rw [selectedEntries, List.mem_filter, matchesExt, decide_eq_true_iff]
  · intro env inF outF entries opts saves h
    exact processSelected_paths env inF outF opts (selectedEntries entries) saves h

theorem walker_allowlist_and_rerooting_witness :
    sampleSaves.map SavedFile.path =
      (selectedEntries sampleEntries).map (fun e => ["out"] ++ e.rel) :=
  walker_allowlist_and_rerooting.2 tinyEnv ["in"] ["out"] sampleEntries
    defaultOptions sampleSaves rfl

/-- C10: line 101 tests only an entry's suffix, never whether the entry
is a regular file, so a directory whose name ends in a listed image
extension is selected and passed to `add_watermark`, and the run fails
when the compositor tries to open it. -/
theorem dir_with_image_extension_processed :
    (∀ (entries : List Entry) (e : Entry),
      e ∈ entries → e.kind = .dir → matchesExt e.rel = true →
      e ∈ selectedEntries entries) ∧
    matchesExt photosDirEntry.rel = true ∧
    process_images dirEnv ["in"] ["out"] [photosDirEntry] defaultOptions
      = .error (.isADirectory ["in", "photos.png"]) := by
  refine ⟨?_, rfl, rfl⟩
  intro entries e he _ hm
  exact List.mem_filter.mpr ⟨he, hm⟩

theorem dir_with_image_extension_processed_witness :
    photosDirEntry ∈ selectedEntries [photosDirEntry] :=
  dir_with_image_extension_processed.1 [photosDirEntry] photosDirEntry
    (List.mem_singleton.mpr rfl) rfl rfl

/-- C6 fails on the code: a font-loading error for the custom font is
caught by the bare `except` of lines 55–56 and silently replaced by the
system font, so the call succeeds instead of propagating the error. -/
theorem font_fallback_cex :
    fontFallbackEnv.truetype "/missing/font.ttf" customFontOptions.font_size
        = .error (.fontNotFound "/missing/font.ttf") ∧
    returnsOk (add_watermark fontFallbackEnv ["in", "a.png"] ["out", "a.png"]
        customFontOptions) = true :=
  ⟨rfl, rfl⟩

/-- C6 amended: decode errors propagate to the caller unmodified; a
font-loading error for the custom font is caught and silently falls back
to the system font; only a failure of the fallback load itself
propagates (as the fallback's error). -/
theorem error_propagation_amended :
    (∀ (env : Env) (ip op : FsPath) (opts : WatermarkOptions) (e : PilError),
      env.openImage ip = .error e → add_watermark env ip op opts = .error e) ∧
    (∀ (env : Env) (p : String) (s : ℤ) (f : Font) (e : PilError),
      env.truetype p s = .error e → env.truetype systemFontPath s = .ok f →
      setupFont env (some p) s = .ok f) ∧
    (∀ (env : Env) (ip op : FsPath) (opts : WatermarkOptions)
       (src : SourceImage) (e1 e2 : PilError),
      env.openImage ip = .ok src →
      env.truetype (opts.font_path.getD "") opts.font_size = .error e1 →
      env.truetype systemFontPath opts.font_size = .error e2 →
      add_watermark env ip op opts = .error e2) := by
  refine ⟨?_, ?_, ?_⟩
  · intro env ip op opts e h
    simp [add_watermark, h]
  · intro env p s f e herr hok
    cases ht : truthyStr (some p) <;> simp [setupFont, ht, herr, hok]
  · intro env ip op opts src e1 e2 hsrc herr1 herr2
    have hfont : setupFont env opts.font_path opts.font_size = .error e2 := by
      cases ht : truthyStr opts.font_path <;>
        simp [setupFont, ht, herr1, herr2]
    simp [add_watermark, hsrc, hfont]

theorem error_propagation_witness :
    add_watermark corruptEnv ["in", "bad.png"] ["out", "bad.png"]
      defaultOptions = .error (.unidentifiedImage ["in", "bad.png"]) :=
  error_propagation_amended.1 corruptEnv ["in", "bad.png"] ["out", "bad.png"]
    defaultOptions (.unidentifiedImage ["in", "bad.png"]) rfl

/-- C9 fails on the code: the constructors validate nothing, so a
`WatermarkOptions` built with opacity keyword 2 has opacity 2 ∉ [0,1]. -/
theorem options_opacity_unvalidated_cex :
    1 < (WatermarkOptions.ofKwargs { opacity := some 2 }).opacity :=
  show (1:ℚ) < 2 by norm_num

/-- C9 amended: the constructors store the supplied keyword arguments
verbatim, so opacity and shadow.opacity lie in [0,1] exactly when every
supplied opacity keyword does (the defaults 0.5 and 0.7 do); nothing is
validated at construction. -/
theorem options_opacity_from_kwargs (k : WatermarkKwargs)
    (h1 : ∀ q ∈ k.opacity, 0 ≤ q ∧ q ≤ 1)
    (h2 : ∀ q ∈ (k.shadow.getD {}).opacity, 0 ≤ q ∧ q ≤ 1) :
    (0 ≤ (WatermarkOptions.ofKwargs k).opacity ∧
      (WatermarkOptions.ofKwargs k).opacity ≤ 1) ∧
    (0 ≤ (WatermarkOptions.ofKwargs k).shadow.opacity ∧
      (WatermarkOptions.ofKwargs k).shadow.opacity ≤ 1) := by
  constructor
  · rcases hk : k.opacity with _ | q
    · norm_num [WatermarkOptions.ofKwargs, hk]
    · simpa [WatermarkOptions.ofKwargs, hk] using h1 q (by simp [hk])
  · rcases hk : (k.shadow.getD {}).opacity with _ | q
    · norm_num [WatermarkOptions.ofKwargs, ShadowOptions.ofKwargs, hk]
    · simpa [WatermarkOptions.ofKwargs, ShadowOptions.ofKwargs, hk] using
        h2 q (by simp [hk])

theorem options_opacity_from_kwargs_witness :
    (0 ≤ (WatermarkOptions.ofKwargs
        { opacity := some 1, shadow := some { opacity := some 0 } }).opacity ∧
      (WatermarkOptions.ofKwargs
        { opacity := some 1, shadow := some { opacity := some 0 } }).opacity ≤ 1) ∧
    (0 ≤ (WatermarkOptions.ofKwargs
        { opacity := some 1, shadow := some { opacity := some 0 } }).shadow.opacity ∧
      (WatermarkOptions.ofKwargs
        { opacity := some 1, shadow := some { opacity := some 0 } }).shadow.opacity ≤ 1) :=
  options_opacity_from_kwargs
    { opacity := some 1, shadow := some { opacity := some 0 } }
    (by simp) (by simp)

/-- C8: `main` skips processing exactly when `validate_options` fails,
and `validate_options` fails exactly when the input path does not exist,
or opacity or shadow-opacity lies outside [0,1], or a (truthy) custom
font path is given but does not exist; no other argument influences
validation. -/
theorem validation_reject_iff (pathExists : String → Bool) (args : Args) :
    main_proceeds pathExists args = validate_options pathExists args ∧
    (validate_options pathExists args = false ↔
      pathExists args.input = false ∨
      args.opacity < 0 ∨ 1 < args.opacity ∨
      args.shadow_opacity < 0 ∨ 1 < args.shadow_opacity ∨
      (truthyStr args.font = true ∧
        pathExists (args.font.getD "") = false)) := by
  refine ⟨rfl, ?_⟩
  unfold validate_options
  split_ifs with h1 h2 h3
  · simp only [eq_self_iff_true, true_iff]
    rcases h2 with h2 | h2
    · rcases not_and_or.mp h2 with h | h
      · exact Or.inr (Or.inl (not_le.mp h))
      · exact Or.inr (Or.inr (Or.inl (not_le.mp h)))
    · rcases not_and_or.mp h2 with h | h
      · exact Or.inr (Or.inr (Or.inr (Or.inl (not_le.mp h))))
      · exact Or.inr (Or.inr (Or.inr (Or.inr (Or.inl (not_le.mp h)))))
  · simp only [Bool.not_eq_true] at h3
    simp only [eq_self_iff_true, true_iff]
    exact Or.inr (Or.inr (Or.inr (Or.inr (Or.inr h3))))
  · push_neg at h2 h3
    simp only [false_iff]
    intro h
    rcases h2 with ⟨⟨ho1, ho2⟩, hs1, hs2⟩
    rcases h with h | h | h | h | h | ⟨hf1, hf2⟩
    · rw [h1] at h; exact Bool.noConfusion h
    · exact absurd h (not_lt.mpr ho1)
    · exact absurd h (not_lt.mpr ho2)
    · exact absurd h (not_lt.mpr hs1)
    · exact absurd h (not_lt.mpr hs2)
    · rw [h3 hf1] at hf2; exact Bool.noConfusion hf2
  · simp only [Bool.not_eq_true] at h1
    simp [h1]

theorem downsize_facts_of_le (w h m : ℤ) (hw : 0 < w) (hh : 0 < h) (hm : 0 < m)
    (hhw : h ≤ w) (hmw : m < w) :
    pyInt ((w:ℚ) * min ((m:ℚ)/(w:ℚ)) ((m:ℚ)/(h:ℚ))) = m ∧
    pyInt ((h:ℚ) * min ((m:ℚ)/(w:ℚ)) ((m:ℚ)/(h:ℚ))) ≤ m ∧
    pyInt ((h:ℚ) * min ((m:ℚ)/(w:ℚ)) ((m:ℚ)/(h:ℚ))) ≤ h ∧
    |(pyInt ((w:ℚ) * min ((m:ℚ)/(w:ℚ)) ((m:ℚ)/(h:ℚ))) : ℚ) -
       (w:ℚ) * min ((m:ℚ)/(w:ℚ)) ((m:ℚ)/(h:ℚ))| < 1 ∧
    |(pyInt ((h:ℚ) * min ((m:ℚ)/(w:ℚ)) ((m:ℚ)/(h:ℚ))) : ℚ) -
       (h:ℚ) * min ((m:ℚ)/(w:ℚ)) ((m:ℚ)/(h:ℚ))| < 1 := by
  have hWq : (0:ℚ) < (w:ℚ) := by exact_mod_cast hw
  have hHq : (0:ℚ) < (h:ℚ) := by exact_mod_cast hh
  have hMq : (0:ℚ) ≤ (m:ℚ) := by exact_mod_cast hm.le
  have hhwq : (h:ℚ) ≤ (w:ℚ) := by exact_mod_cast hhw
  have hmwq : (m:ℚ) ≤ (w:ℚ) := by exact_mod_cast hmw.le
  have hmin : min ((m:ℚ)/(w:ℚ)) ((m:ℚ)/(h:ℚ)) = (m:ℚ)/(w:ℚ) :=
    min_eq_left (div_le_div_of_nonneg_left hMq hHq hhwq)
  rw [hmin]
  have hwm : (w:ℚ) * ((m:ℚ)/(w:ℚ)) = (m:ℚ) := by
    field_simp
  have hratio_nonneg : (0:ℚ) ≤ (m:ℚ)/(w:ℚ) := div_nonneg hMq hWq.le
  have hx_nonneg : (0:ℚ) ≤ (h:ℚ) * ((m:ℚ)/(w:ℚ)) := mul_nonneg hHq.le hratio_nonneg
  have hxm : (h:ℚ) * ((m:ℚ)/(w:ℚ)) ≤ (m:ℚ) := by
    calc (h:ℚ) * ((m:ℚ)/(w:ℚ)) ≤ (w:ℚ) * ((m:ℚ)/(w:ℚ)) :=
          mul_le_mul_of_nonneg_right hhwq hratio_nonneg
    _ = (m:ℚ) := hwm
  have hxh : (h:ℚ) * ((m:ℚ)/(w:ℚ)) ≤ (h:ℚ) := by
    have hr1 : (m:ℚ)/(w:ℚ) ≤ 1 := (div_le_one hWq).mpr hmwq
    calc (h:ℚ) * ((m:ℚ)/(w:ℚ)) ≤ (h:ℚ) * 1 := mul_le_mul_of_nonneg_left hr1 hHq.le
    _ = (h:ℚ) := mul_one _
  have e1 : pyInt ((w:ℚ) * ((m:ℚ)/(w:ℚ))) = m := by
    rw [hwm, pyInt_eq_floor _ hMq, Int.floor_intCast]
  have e2 : pyInt ((h:ℚ) * ((m:ℚ)/(w:ℚ))) = ⌊(h:ℚ) * ((m:ℚ)/(w:ℚ))⌋ :=
    pyInt_eq_floor _ hx_nonneg
  refine ⟨e1, ?_, ?_, ?_, ?_⟩
  · rw [e2]
    calc ⌊(h:ℚ) * ((m:ℚ)/(w:ℚ))⌋ ≤ ⌊(m:ℚ)⌋ := Int.floor_le_floor hxm
    _ = m := Int.floor_intCast m
  · rw [e2]
    calc ⌊(h:ℚ) * ((m:ℚ)/(w:ℚ))⌋ ≤ ⌊(h:ℚ)⌋ := Int.floor_le_floor hxh
    _ = h := Int.floor_intCast h
  · rw [e1, hwm, sub_self, abs_zero]
    exact zero_lt_one
  · rw [e2, abs_sub_comm, Int.self_sub_floor, abs_of_nonneg (Int.fract_nonneg _)]
    exact Int.fract_lt_one _

/-- C2 amended: when `downsize_to = m` is a positive bound it is a no-op
unless a dimension exceeds m; otherwise the image is scaled by the exact
factor r = min(m/width, m/height) with each new dimension truncated to an
integer, so the larger dimension becomes exactly m, neither dimension
grows, and each dimension is within 1 pixel of the exact aspect-preserving
value width·r (resp. height·r).  The spec's blanket ratio tolerance
|orig_ratio − new_ratio| < 0.01 does not hold for small images, so it is
replaced by this per-dimension rounding bound. -/
theorem downsize_behaviour (w h m : ℤ) (hw : 0 < w) (hh : 0 < h) (hm : 0 < m) :
    (max w h ≤ m → downsizedSize w h (some m) = (w, h)) ∧
    (m < max w h →
      max (downsizedSize w h (some m)).1 (downsizedSize w h (some m)).2 = m ∧
      (downsizedSize w h (some m)).1 ≤ w ∧
      (downsizedSize w h (some m)).2 ≤ h ∧
      |((downsizedSize w h (some m)).1 : ℚ) -
         (w:ℚ) * min ((m:ℚ)/(w:ℚ)) ((m:ℚ)/(h:ℚ))| < 1 ∧
      |((downsizedSize w h (some m)).2 : ℚ) -
         (h:ℚ) * min ((m:ℚ)/(w:ℚ)) ((m:ℚ)/(h:ℚ))| < 1) := by
  constructor
  · intro hle
    rw [max_le_iff] at hle
    have hnc : ¬(m ≠ 0 ∧ (w > m ∨ h > m)) := by
      rintro ⟨-, hor | hor⟩
      · exact absurd hor (not_lt.mpr hle.1)
      · exact absurd hor (not_lt.mpr hle.2)
    simp only [downsizedSize]
    rw [if_neg hnc]
  · intro hlt
    have hcond : m ≠ 0 ∧ (w > m ∨ h > m) := by
      refine ⟨hm.ne', ?_⟩
      rcases lt_max_iff.mp hlt with hc | hc
      · exact Or.inl hc
      · exact Or.inr hc
    have hds : downsizedSize w h (some m) =
        (pyInt ((w:ℚ) * min ((m:ℚ)/(w:ℚ)) ((m:ℚ)/(h:ℚ))),
         pyInt ((h:ℚ) * min ((m:ℚ)/(w:ℚ)) ((m:ℚ)/(h:ℚ)))) := by
      simp only [downsizedSize]
      rw [if_pos hcond]
    rw [hds]
    rcases le_total h w with hhw | hwh
    · have hmw : m < w := by
        rcases lt_max_iff.mp hlt with hc | hc
        · exact hc
        · exact lt_of_lt_of_le hc hhw
      obtain ⟨e1, e2m, e2h, a1, a2⟩ := downsize_facts_of_le w h m hw hh hm hhw hmw
      refine ⟨?_, ?_, e2h, a1, a2⟩
      · rw [e1]
        exact max_eq_left e2m
      · rw [e1]
        exact hmw.le
    · have hmh : m < h := by
        rcases lt_max_iff.mp hlt with hc | hc
        · exact lt_of_lt_of_le hc hwh
        · exact hc
      obtain ⟨e1, e2m, e2w, a1, a2⟩ := downsize_facts_of_le h w m hh hw hm hwh hmh
      rw [min_comm] at e1 e2m e2w a1 a2
      refine ⟨?_, e2w, ?_, a2, a1⟩
      · rw [e1]
        exact max_eq_right e2m
      · rw [e1]
        exact hmh.le

/-- C2 fails on the code as stated: for a 3×2 image downsized to 2, the
code produces a 2×1 image, whose aspect ratio 2 differs from the original
3/2 by 1/2 ≥ 1/100, violating the claimed tolerance. -/
theorem downsize_tolerance_cex :
    downsizedSize 3 2 (some 2) = (2, 1) ∧
    (1/100 : ℚ) ≤ |(3:ℚ)/2 - (2:ℚ)/1| := by
  constructor
  · have h1 : ((3:ℤ):ℚ) * min (((2:ℤ):ℚ)/((3:ℤ):ℚ)) (((2:ℤ):ℚ)/((2:ℤ):ℚ)) = 2 := by
      rw [min_eq_left (by norm_num)]
      norm_num
    have h2 : ((2:ℤ):ℚ) * min (((2:ℤ):ℚ)/((3:ℤ):ℚ)) (((2:ℤ):ℚ)/((2:ℤ):ℚ)) = 4/3 := by
      rw [min_eq_left (by norm_num)]
      norm_num
    have hp1 : pyInt (((3:ℤ):ℚ) * min (((2:ℤ):ℚ)/((3:ℤ):ℚ)) (((2:ℤ):ℚ)/((2:ℤ):ℚ))) = 2 := by
      rw [h1, pyInt_eq_floor _ (by norm_num)]
      norm_num
    have hp2 : pyInt (((2:ℤ):ℚ) * min (((2:ℤ):ℚ)/((3:ℤ):ℚ)) (((2:ℤ):ℚ)/((2:ℤ):ℚ))) = 1 := by
      rw [h2, pyInt_eq_floor _ (by norm_num)]
      norm_num
    simp only [downsizedSize]
    rw [if_pos ⟨by norm_num, Or.inl (by norm_num)⟩, hp1, hp2]
  · have hval : (3:ℚ)/2 - (2:ℚ)/1 = -(1/2) := by norm_num
    rw [hval, abs_neg, abs_of_nonneg (by norm_num : (0:ℚ) ≤ 1/2)]
    norm_num

theorem downsize_behaviour_witness :
    max (downsizedSize 3 2 (some 2)).1 (downsizedSize 3 2 (some 2)).2 = 2 ∧
    (downsizedSize 3 2 (some 2)).1 ≤ 3 ∧
    (downsizedSize 3 2 (some 2)).2 ≤ 2 ∧
    |((downsizedSize 3 2 (some 2)).1 : ℚ) -
       ((3:ℤ):ℚ) * min (((2:ℤ):ℚ)/((3:ℤ):ℚ)) (((2:ℤ):ℚ)/((2:ℤ):ℚ))| < 1 ∧
    |((downsizedSize 3 2 (some 2)).2 : ℚ) -
       ((2:ℤ):ℚ) * min (((2:ℤ):ℚ)/((3:ℤ):ℚ)) (((2:ℤ):ℚ)/((2:ℤ):ℚ))| < 1 :=
  (downsize_behaviour 3 2 2 (by decide) (by decide) (by decide)).2 (by decide)

end Iris
